import Mathlib

/-!
Verification of the GenLayer DevKit template-rendering and validation core
(`genlayer_devkit.py`).

The embedding models:
* the Python `str.format` substitution used by `generate` (`pyFormatGo` /
  `pyFormat`), covering named fields and the doubled-brace escape as used by
  the template registry; unsupported format features (conversions, format
  specs) are treated like a failed key lookup, i.e. a raised error (`none`);
* the template registry literally transcribed from the `templates` dict in
  `generate` (lines 234-366 of the source);
* the `generate` command's control flow after argument parsing
  (`generateRun`): unknown-type handling, rendering, the contracts-directory
  fallback, and the file write;
* the `test` command's validation pass over the already-read contract text
  (`runTest`): the syntax check (abstracted as a `parse` function returning
  `none` on success or `some message` for a `SyntaxError`), the fixed idiom
  check list, and the public-entry-point count.

Python's `in` operator on strings is `pyIn` (substring presence) and
`str.count` is `pyCountStr` (non-overlapping left-to-right occurrence count),
both transcribed from their documented semantics.
-/

namespace GenlayerDevkit

set_option maxRecDepth 8000

/-- Scanner state for the Python `str.format` model: scanning literal text,
having just seen an opening or a closing brace, or inside a replacement
field whose name characters so far are `acc`. -/
inductive FmtMode where
  | lit
  | openB
  | closeB
  | field (acc : List Char)
deriving DecidableEq

/-- Scanner for Python `str.format` restricted to the features the registry
uses (named fields, doubled-brace escapes).  Consumes one character per
step.  Returns `none` where Python `format` would raise: stray single
brace, unterminated field, a brace inside a field name, or an unknown field
name. -/
def pyFormatGo (ctx : List (String × String)) : FmtMode → List Char → Option (List Char)
  | .lit, [] => some []
  | .openB, [] => none
  | .closeB, [] => none
  | .field _, [] => none
  | .lit, c :: rest =>
    if c = '\x7b' then pyFormatGo ctx .openB rest
    else if c = '\x7d' then pyFormatGo ctx .closeB rest
    else (pyFormatGo ctx .lit rest).map (fun s => c :: s)
  | .openB, c :: rest =>
    if c = '\x7b' then (pyFormatGo ctx .lit rest).map (fun s => '\x7b' :: s)
    else if c = '\x7d' then
      match List.lookup "" ctx with
      | none => none
      | some v => (pyFormatGo ctx .lit rest).map (fun s => v.data ++ s)
    else pyFormatGo ctx (.field [c]) rest
  | .closeB, c :: rest =>
    if c = '\x7d' then (pyFormatGo ctx .lit rest).map (fun s => '\x7d' :: s)
    else none
  | .field acc, c :: rest =>
    if c = '\x7d' then
      match List.lookup (String.mk acc) ctx with
      | none => none
      | some v => (pyFormatGo ctx .lit rest).map (fun s => v.data ++ s)
    else if c = '\x7b' then none
    else pyFormatGo ctx (.field (acc ++ [c])) rest

/-- `template.format(name=...)` as used by `generate`. -/
def pyFormat (ctx : List (String × String)) (template : String) : Option String :=
  (pyFormatGo ctx .lit template.data).map String.mk

/-- Python `needle in hay` on strings: substring presence. -/
def pyIn (nd : List Char) : List Char → Bool
  | [] => nd.isEmpty
  | c :: rest => nd.isPrefixOf (c :: rest) || pyIn nd rest

/-- Non-overlapping occurrence scan of Python `str.count`: after a match the
next `nd.length - 1` positions are skipped (tracked by the `Nat` argument). -/
def pyCountAux (nd : List Char) : List Char → Nat → Nat
  | [], _ => 0
  | c :: rest, 0 =>
    if nd.isPrefixOf (c :: rest) then 1 + pyCountAux nd rest (nd.length - 1)
    else pyCountAux nd rest 0
  | _ :: rest, Nat.succ k => pyCountAux nd rest k

/-- Python `hay.count(nd)`. -/
def pyCountStr (nd hay : String) : Nat :=
  if nd.data.isEmpty then hay.data.length + 1 else pyCountAux nd.data hay.data 0

/-- The `checks` list of the `test` command (source lines 426-430):
`(pattern, human label)` pairs tested by substring presence. -/
def requiredChecks : List (String × String) :=
  [("gl.Contract", "Inherits from gl.Contract"),
   ("@gl.public", "Has public methods"),
   ("def __init__", "Has constructor")]

/-- Observable result of the `test` command on a contract text.  `checks` and
`publicCount` are `none` when the command returned before computing them. -/
structure TestOutput where
  syntaxOk : Bool
  syntaxError : Option String
  checks : Option (List (String × Bool))
  publicCount : Option Nat
deriving DecidableEq

/-- The `test` command from the point where the contract text has been read
(source lines 417-440).  `parse` abstracts the host-language parser invoked
by `compile(contract_code, ..., "exec")`: it returns `none` on acceptance and
`some message` for a `SyntaxError`.  On a syntax error the source prints the
error and returns at once, so neither the idiom checks nor the count run. -/
def runTest (parse : String → Option String) (src : String) : TestOutput :=
  match parse src with
  | some e => ⟨false, some e, none, none⟩
  | none =>
    ⟨true, none,
     some (requiredChecks.map (fun pc => (pc.2, pyIn pc.1.data src.data))),
     some (pyCountStr "@gl.public" src)⟩

/-! ### The template registry (source lines 234-366, transcribed verbatim;
braces are written `\x7b`/`\x7d` and apostrophes `\x27`). -/

def basicCode : String :=
  "# \x7b\x7b \"Depends\": \"py-genlayer:test\" \x7d\x7d\nfrom genlayer import *\n\nclass \x7bname\x7d(gl.Contract):\n    def __init__(self):\n        self.data = \x7b\x7b\x7d\x7d\n    \n    @gl.public.write\n    def store(self, key: str, value: str):\n        self.data[key] = value\n        return f\"Stored: \x7b\x7bkey\x7d\x7d = \x7b\x7bvalue\x7d\x7d\"\n    \n    @gl.public.view\n    def retrieve(self, key: str) -> str:\n        return self.data.get(key, \"Not found\")\n"

def oracleCode : String :=
  "# \x7b\x7b \"Depends\": \"py-genlayer:test\" \x7d\x7d\nfrom genlayer import *\n\nclass \x7bname\x7d(gl.Contract):\n    def __init__(self):\n        self.prices = \x7b\x7b\x7d\x7d\n        self.last_update = 0\n    \n    @gl.public.write\n    def fetch_price(self, token: str) -> int:\n        \"\"\"Fetch token price using AI\"\"\"\n        \n        prompt = f\"Get current price for \x7b\x7btoken\x7d\x7d in USD\"\n        \n        def get_price():\n            return gl.exec_prompt(prompt)\n        \n        price_str = gl.eq_principle_strict_eq(get_price)\n        price = int(price_str)\n        \n        self.prices[token] = price\n        self.last_update = gl.block_timestamp\n        \n        return price\n    \n    @gl.public.view\n    def get_price(self, token: str) -> int:\n        return self.prices.get(token, 0)\n"

def insuranceCode : String :=
  "# \x7b\x7b \"Depends\": \"py-genlayer:test\" \x7d\x7d\nfrom genlayer import *\n\nclass \x7bname\x7d(gl.Contract):\n    def __init__(self):\n        self.policies = \x7b\x7b\x7d\x7d\n        self.policy_counter = 0\n    \n    @gl.public.write\n    def create_policy(self, location: str, coverage: int) -> str:\n        self.policy_counter += 1\n        policy_id = f\"POL-\x7b\x7bself.policy_counter\x7d\x7d\"\n        \n        self.policies[policy_id] = \x7b\x7b\n            \"location\": location,\n            \"coverage\": coverage,\n            \"active\": True\n        \x7d\x7d\n        \n        return policy_id\n    \n    @gl.public.write\n    def check_weather(self, policy_id: str) -> str:\n        if policy_id not in self.policies:\n            return \"Policy not found\"\n        \n        # In production: fetch real weather via AI\n        # Check if payout conditions met\n        \n        return \"Weather checked\"\n    \n    @gl.public.view\n    def get_policy(self, policy_id: str) -> str:\n        policy = self.policies.get(policy_id)\n        if not policy:\n            return \"Not found\"\n        return f\"Location: \x7b\x7bpolicy[\x27location\x27]\x7d\x7d, Coverage: \x7b\x7bpolicy[\x27coverage\x27]\x7d\x7d\"\n"

def defiCode : String :=
  "# \x7b\x7b \"Depends\": \"py-genlayer:test\" \x7d\x7d\nfrom genlayer import *\n\nclass \x7bname\x7d(gl.Contract):\n    def __init__(self):\n        self.balances = \x7b\x7b\x7d\x7d\n        self.total_supply = 0\n    \n    @gl.public.write\n    def deposit(self, amount: int):\n        user = gl.message_sender_address\n        \n        if user not in self.balances:\n            self.balances[user] = 0\n        \n        self.balances[user] += amount\n        self.total_supply += amount\n        \n        return f\"Deposited \x7b\x7bamount\x7d\x7d\"\n    \n    @gl.public.write\n    def withdraw(self, amount: int):\n        user = gl.message_sender_address\n        \n        if user not in self.balances or self.balances[user] < amount:\n            return \"Insufficient balance\"\n        \n        self.balances[user] -= amount\n        self.total_supply -= amount\n        \n        return f\"Withdrawn \x7b\x7bamount\x7d\x7d\"\n    \n    @gl.public.view\n    def get_balance(self, address: str) -> int:\n        return self.balances.get(address, 0)\n"

structure Template where
  description : String
  code : String
deriving DecidableEq

/-- The `templates` dict of `generate`, in source order. -/
def templates : List (String × Template) :=
  [("basic", ⟨"Basic contract with storage", basicCode⟩),
   ("oracle", ⟨"Price oracle with AI integration", oracleCode⟩),
   ("insurance", ⟨"Weather-based insurance contract", insuranceCode⟩),
   ("defi", ⟨"Simple DeFi lending contract", defiCode⟩)]

def templateKeys : List String := templates.map Prod.fst

/-- Rendering step of `generate`: look the key up and apply
`template["code"].format(name=name)`. -/
def renderTemplate (typ name : String) : Option String :=
  match List.lookup typ templates with
  | none => none
  | some t => pyFormat [("name", name)] t.code

/-- Observable outcome of one `generate` invocation. -/
structure GenOutcome where
  unknownType : Bool
  availableTypes : List String
  warnedNoDir : Bool
  writes : List (String × String)
  exitCode : Nat
deriving DecidableEq

/-- The `generate` command (source lines 229-397) after argument parsing.
An unknown type prints the error plus the key list and returns normally,
which under click is exit code 0.  Otherwise the code is rendered, then the
target path is `contracts/<name>.py`, falling back (with a warning) to
`<name>.py` in the current directory when `contracts/` does not exist.  A
formatting exception would propagate uncaught, exit code 1, before any
write. -/
def generateRun (typ name : String) (contractsDirExists : Bool) : GenOutcome :=
  match List.lookup typ templates with
  | none => ⟨true, templates.map Prod.fst, false, [], 0⟩
  | some t =>
    match pyFormat [("name", name)] t.code with
    | none => ⟨false, [], false, [], 1⟩
    | some contractCode =>
      ⟨false, [], !contractsDirExists,
       [(((if contractsDirExists then "contracts/" ++ name ++ ".py" else name ++ ".py") : String),
         contractCode)], 0⟩

/-! ### A model of the host-language parser

The syntax-acceptance step of `test` calls the host toolchain's parser
(`compile`), which is not part of this repository. -/

def isIdentStart (c : Char) : Bool := c.isAlpha || c = '_'

def isIdentChar (c : Char) : Bool := isIdentStart c || c.isDigit

/-- Nonempty and shaped like a (ASCII) Python identifier. -/
def validIdentChars : List Char → Bool
  | [] => false
  | c :: rest => isIdentStart c && rest.all isIdentChar

/-- Characters that end the class-name token on a `class` line. -/
def nameStop (c : Char) : Bool := c = '\x28' || c = ':' || c = ' '

/-- Python's line split (`splitlines` on `\n` only, keeping a final empty
segment the way `split("\n")` does). -/
def splitLines : List Char → List (List Char)
  | [] => [[]]
  | c :: rest =>
    if c = '\n' then [] :: splitLines rest
    else
      match splitLines rest with
      | [] => [[c]]
      | l :: ls => (c :: l) :: ls

/-- The reserved (hard) keywords of the target language: identifier-shaped
tokens that the grammar nevertheless rejects as names. -/
def pyKeywords : List String :=
  ["False", "None", "True", "and", "as", "assert", "async", "await",
   "break", "class", "continue", "def", "del", "elif", "else", "except",
   "finally", "for", "from", "global", "if",
   "\x69mport", "in", "is", "lambda", "nonlocal",
   "not", "or", "pass", "raise", "return", "try", "while", "with", "yield"]

def isKeyword (l : List Char) : Bool := pyKeywords.any (fun k => k.data == l)

/-- One necessary condition of the Python grammar checked per line: a line
beginning with `class ` must carry a well-formed nonempty identifier, which
is not a reserved keyword, before the `(`/`:`/space that follows it. -/
def classLineOk (line : List Char) : Bool :=
  if "class ".data.isPrefixOf line then
    validIdentChars ((line.drop 6).takeWhile (fun c => !nameStop c)) &&
      !isKeyword ((line.drop 6).takeWhile (fun c => !nameStop c))
  else true

def pySyntaxCheckL (l : List Char) : Bool := (splitLines l).all classLineOk

/-- Modelled from the spec: the syntax-acceptance step delegates to the host
toolchain's parser (`compile(...)` in the source), which is external to this
repository.  This model captures one necessary condition of that grammar —
every `class` statement must name a well-formed identifier that is not a
reserved keyword — and accepts any text satisfying it.  Its verdict agrees
with the real parser on every input used below: the rendered templates with
non-keyword identifier names (accepted) and class lines with an empty,
digit-led or keyword name (rejected). -/
def pySyntaxCheck (src : String) : Option String :=
  if pySyntaxCheckL src.data then none else some "invalid syntax"

/-! ### Shape of the rendered output

Every registered template renders to a fixed prefix (ending in `class `),
then the substituted name, then a fixed remainder starting with
`(gl.Contract):`.  The prefix is shared by all four templates. -/

def renderedPre : String :=
  "# \x7b \"Depends\": \"py-genlayer:test\" \x7d\nfrom genlayer import *\n\nclass "

def basicBody : String :=
  "    def __init__(self):\n        self.data = \x7b\x7d\n    \n    @gl.public.write\n    def store(self, key: str, value: str):\n        self.data[key] = value\n        return f\"Stored: \x7bkey\x7d = \x7bvalue\x7d\"\n    \n    @gl.public.view\n    def retrieve(self, key: str) -> str:\n        return self.data.get(key, \"Not found\")\n"

def oracleBody : String :=
  "    def __init__(self):\n        self.prices = \x7b\x7d\n        self.last_update = 0\n    \n    @gl.public.write\n    def fetch_price(self, token: str) -> int:\n        \"\"\"Fetch token price using AI\"\"\"\n        \n        prompt = f\"Get current price for \x7btoken\x7d in USD\"\n        \n        def get_price():\n            return gl.exec_prompt(prompt)\n        \n        price_str = gl.eq_principle_strict_eq(get_price)\n        price = int(price_str)\n        \n        self.prices[token] = price\n        self.last_update = gl.block_timestamp\n        \n        return price\n    \n    @gl.public.view\n    def get_price(self, token: str) -> int:\n        return self.prices.get(token, 0)\n"

def insuranceBody : String :=
  "    def __init__(self):\n        self.policies = \x7b\x7d\n        self.policy_counter = 0\n    \n    @gl.public.write\n    def create_policy(self, location: str, coverage: int) -> str:\n        self.policy_counter += 1\n        policy_id = f\"POL-\x7bself.policy_counter\x7d\"\n        \n        self.policies[policy_id] = \x7b\n            \"location\": location,\n            \"coverage\": coverage,\n            \"active\": True\n        \x7d\n        \n        return policy_id\n    \n    @gl.public.write\n    def check_weather(self, policy_id: str) -> str:\n        if policy_id not in self.policies:\n            return \"Policy not found\"\n        \n        # In production: fetch real weather via AI\n        # Check if payout conditions met\n        \n        return \"Weather checked\"\n    \n    @gl.public.view\n    def get_policy(self, policy_id: str) -> str:\n        policy = self.policies.get(policy_id)\n        if not policy:\n            return \"Not found\"\n        return f\"Location: \x7bpolicy[\x27location\x27]\x7d, Coverage: \x7bpolicy[\x27coverage\x27]\x7d\"\n"

def defiBody : String :=
  "    def __init__(self):\n        self.balances = \x7b\x7d\n        self.total_supply = 0\n    \n    @gl.public.write\n    def deposit(self, amount: int):\n        user = gl.message_sender_address\n        \n        if user not in self.balances:\n            self.balances[user] = 0\n        \n        self.balances[user] += amount\n        self.total_supply += amount\n        \n        return f\"Deposited \x7bamount\x7d\"\n    \n    @gl.public.write\n    def withdraw(self, amount: int):\n        user = gl.message_sender_address\n        \n        if user not in self.balances or self.balances[user] < amount:\n            return \"Insufficient balance\"\n        \n        self.balances[user] -= amount\n        self.total_supply -= amount\n        \n        return f\"Withdrawn \x7bamount\x7d\"\n    \n    @gl.public.view\n    def get_balance(self, address: str) -> int:\n        return self.balances.get(address, 0)\n"

def basicPost : String := "(gl.Contract):\n" ++ basicBody
def oraclePost : String := "(gl.Contract):\n" ++ oracleBody
def insurancePost : String := "(gl.Contract):\n" ++ insuranceBody
def defiPost : String := "(gl.Contract):\n" ++ defiBody

/-! ### A segment view of template bodies

To evaluate `pyFormatGo` on the long template strings without one huge
definitional reduction, each template body is decomposed into segments:
brace-free literal runs, doubled-brace escapes, and replacement fields.
`pyFormatGo_segs` computes the scanner once and for all on any well-formed
segment list; each template's decomposition is then checked by `decide`. -/

def braceFree (l : List Char) : Bool := l.all (fun c => !(c = '\x7b' || c = '\x7d'))

inductive Seg where
  | lit (s : String)
  | esc (c : Char)
  | field (k : String)
deriving DecidableEq

def segWF : Seg → Bool
  | .lit s => braceFree s.data
  | .esc c => c = '\x7b' || c = '\x7d'
  | .field k => braceFree k.data

def segsWF (l : List Seg) : Bool := l.all segWF

/-- The raw template text a segment list denotes (escapes re-doubled). -/
def segsEncode : List Seg → List Char
  | [] => []
  | .lit s :: rest => s.data ++ segsEncode rest
  | .esc c :: rest => c :: c :: segsEncode rest
  | .field k :: rest => '\x7b' :: (k.data ++ ('\x7d' :: segsEncode rest))

/-- What `str.format` produces on the denoted text. -/
def segsRender (ctx : List (String × String)) : List Seg → Option (List Char)
  | [] => some []
  | .lit s :: rest => (segsRender ctx rest).map (fun t => s.data ++ t)
  | .esc c :: rest => (segsRender ctx rest).map (fun t => c :: t)
  | .field k :: rest =>
    match List.lookup k ctx with
    | none => none
    | some v => (segsRender ctx rest).map (fun t => v.data ++ t)

theorem pyFormatGo_lit_append (ctx : List (String × String)) (a rest : List Char)
    (h : braceFree a = true) :
    pyFormatGo ctx .lit (a ++ rest) = (pyFormatGo ctx .lit rest).map (fun s => a ++ s) := by
  induction a with
  | nil =>
    simp only [List.nil_append]
    cases pyFormatGo ctx .lit rest <;> rfl
  | cons c cs ih =>
    simp only [braceFree, List.all_cons, Bool.and_eq_true, Bool.not_eq_true',
      Bool.or_eq_false_iff, decide_eq_false_iff_not] at h
    obtain ⟨⟨hc1, hc2⟩, hcs⟩ := h
    have hcs' : braceFree cs = true := by
      simpa [braceFree] using hcs
    rw [List.cons_append]
    simp only [pyFormatGo, if_neg hc1, if_neg hc2, ih hcs']
    cases pyFormatGo ctx .lit rest <;> rfl

theorem pyFormatGo_open_esc (ctx : List (String × String)) (rest : List Char) :
    pyFormatGo ctx .lit ('\x7b' :: '\x7b' :: rest)
      = (pyFormatGo ctx .lit rest).map (fun s => '\x7b' :: s) := rfl

theorem pyFormatGo_close_esc (ctx : List (String × String)) (rest : List Char) :
    pyFormatGo ctx .lit ('\x7d' :: '\x7d' :: rest)
      = (pyFormatGo ctx .lit rest).map (fun s => '\x7d' :: s) := rfl

theorem pyFormatGo_field_acc (ctx : List (String × String)) (k : List Char) :
    ∀ acc E, braceFree k = true →
    pyFormatGo ctx (.field acc) (k ++ '\x7d' :: E) =
      (match List.lookup (String.mk (acc ++ k)) ctx with
       | none => none
       | some v => (pyFormatGo ctx .lit E).map (fun s => v.data ++ s)) := by
  induction k with
  | nil =>
    intro acc E _
    simp [pyFormatGo]
  | cons c k' ih =>
    intro acc E h
    simp only [braceFree, List.all_cons, Bool.and_eq_true, Bool.not_eq_true',
      Bool.or_eq_false_iff, decide_eq_false_iff_not] at h
    obtain ⟨⟨hc1, hc2⟩, hk'⟩ := h
    have hk'' : braceFree k' = true := by simpa [braceFree] using hk'
    rw [List.cons_append]
    simp only [pyFormatGo, if_neg hc2, if_neg hc1]
    rw [ih (acc ++ [c]) E hk'', List.append_assoc, List.singleton_append]

theorem pyFormatGo_segs (ctx : List (String × String)) (segs : List Seg)
    (h : segsWF segs = true) :
    pyFormatGo ctx .lit (segsEncode segs) = segsRender ctx segs := by
  induction segs with
  | nil => rfl
  | cons sg rest ih =>
    simp only [segsWF, List.all_cons, Bool.and_eq_true] at h
    obtain ⟨h1, h2⟩ := h
    have ihr := ih (by simpa [segsWF] using h2)
    cases sg with
    | lit s =>
      simp only [segsEncode, segsRender]
      rw [pyFormatGo_lit_append ctx s.data _ h1, ihr]
    | esc c =>
      have hc : c = '\x7b' ∨ c = '\x7d' := by
        simpa [segWF, Bool.or_eq_true, decide_eq_true_eq] using h1
      simp only [segsEncode, segsRender]
      rcases hc with rfl | rfl
      · rw [pyFormatGo_open_esc, ihr]
      · rw [pyFormatGo_close_esc, ihr]
    | field k =>
      obtain ⟨d⟩ := k
      simp only [segsEncode, segsRender]
      cases d with
      | nil =>
        have hmk : (String.mk [] : String) = "" := rfl
        simp only [List.nil_append]
        show pyFormatGo ctx .openB ('\x7d' :: segsEncode rest) = _
        simp only [hmk]
        simp [pyFormatGo]
        cases List.lookup ("" : String) ctx with
        | none => rfl
        | some v => rw [ihr]
      | cons c0 k' =>
        have h1' : braceFree (c0 :: k') = true := by
          simpa [segWF] using h1
        simp only [braceFree, List.all_cons, Bool.and_eq_true, Bool.not_eq_true',
          Bool.or_eq_false_iff, decide_eq_false_iff_not] at h1'
        obtain ⟨⟨hb1, hb2⟩, hk'⟩ := h1'
        have hk'' : braceFree k' = true := by simpa [braceFree] using hk'
        rw [List.cons_append]
        show pyFormatGo ctx .openB (c0 :: (k' ++ '\x7d' :: segsEncode rest)) = _
        simp only [pyFormatGo, if_neg hb1, if_neg hb2]
        rw [pyFormatGo_field_acc ctx k' [c0] (segsEncode rest) hk'', List.singleton_append]
        cases List.lookup (String.mk (c0 :: k')) ctx with
        | none => rfl
        | some v => rw [ihr]

def basicSegs : List Seg :=
  [.lit "# ",
.esc '\x7b',
.lit " \"Depends\": \"py-genlayer:test\" ",
.esc '\x7d',
.lit "\nfrom genlayer import *\n\nclass ",
.field "name",
.lit "(gl.Contract):\n    def __init__(self):\n        self.data = ",
.esc '\x7b',
.esc '\x7d',
.lit "\n    \n    @gl.public.write\n    def store(self, key: str, value: str):\n        self.data[key] = value\n        return f\"Stored: ",
.esc '\x7b',
.lit "key",
.esc '\x7d',
.lit " = ",
.esc '\x7b',
.lit "value",
.esc '\x7d',
.lit "\"\n    \n    @gl.public.view\n    def retrieve(self, key: str) -> str:\n        return self.data.get(key, \"Not found\")\n"]

def oracleSegs : List Seg :=
  [.lit "# ",
.esc '\x7b',
.lit " \"Depends\": \"py-genlayer:test\" ",
.esc '\x7d',
.lit "\nfrom genlayer import *\n\nclass ",
.field "name",
.lit "(gl.Contract):\n    def __init__(self):\n        self.prices = ",
.esc '\x7b',
.esc '\x7d',
.lit "\n        self.last_update = 0\n    \n    @gl.public.write\n    def fetch_price(self, token: str) -> int:\n        \"\"\"Fetch token price using AI\"\"\"\n        \n        prompt = f\"Get current price for ",
.esc '\x7b',
.lit "token",
.esc '\x7d',
.lit " in USD\"\n        \n        def get_price():\n            return gl.exec_prompt(prompt)\n        \n        price_str = gl.eq_principle_strict_eq(get_price)\n        price = int(price_str)\n        \n        self.prices[token] = price\n        self.last_update = gl.block_timestamp\n        \n        return price\n    \n    @gl.public.view\n    def get_price(self, token: str) -> int:\n        return self.prices.get(token, 0)\n"]

def insuranceSegs : List Seg :=
  [.lit "# ",
.esc '\x7b',
.lit " \"Depends\": \"py-genlayer:test\" ",
.esc '\x7d',
.lit "\nfrom genlayer import *\n\nclass ",
.field "name",
.lit "(gl.Contract):\n    def __init__(self):\n        self.policies = ",
.esc '\x7b',
.esc '\x7d',
.lit "\n        self.policy_counter = 0\n    \n    @gl.public.write\n    def create_policy(self, location: str, coverage: int) -> str:\n        self.policy_counter += 1\n        policy_id = f\"POL-",
.esc '\x7b',
.lit "self.policy_counter",
.esc '\x7d',
.lit "\"\n        \n        self.policies[policy_id] = ",
.esc '\x7b',
.lit "\n            \"location\": location,\n            \"coverage\": coverage,\n            \"active\": True\n        ",
.esc '\x7d',
.lit "\n        \n        return policy_id\n    \n    @gl.public.write\n    def check_weather(self, policy_id: str) -> str:\n        if policy_id not in self.policies:\n            return \"Policy not found\"\n        \n        # In production: fetch real weather via AI\n        # Check if payout conditions met\n        \n        return \"Weather checked\"\n    \n    @gl.public.view\n    def get_policy(self, policy_id: str) -> str:\n        policy = self.policies.get(policy_id)\n        if not policy:\n            return \"Not found\"\n        return f\"Location: ",
.esc '\x7b',
.lit "policy[\x27location\x27]",
.esc '\x7d',
.lit ", Coverage: ",
.esc '\x7b',
.lit "policy[\x27coverage\x27]",
.esc '\x7d',
.lit "\"\n"]

def defiSegs : List Seg :=
  [.lit "# ",
.esc '\x7b',
.lit " \"Depends\": \"py-genlayer:test\" ",
.esc '\x7d',
.lit "\nfrom genlayer import *\n\nclass ",
.field "name",
.lit "(gl.Contract):\n    def __init__(self):\n        self.balances = ",
.esc '\x7b',
.esc '\x7d',
.lit "\n        self.total_supply = 0\n    \n    @gl.public.write\n    def deposit(self, amount: int):\n        user = gl.message_sender_address\n        \n        if user not in self.balances:\n            self.balances[user] = 0\n        \n        self.balances[user] += amount\n        self.total_supply += amount\n        \n        return f\"Deposited ",
.esc '\x7b',
.lit "amount",
.esc '\x7d',
.lit "\"\n    \n    @gl.public.write\n    def withdraw(self, amount: int):\n        user = gl.message_sender_address\n        \n        if user not in self.balances or self.balances[user] < amount:\n            return \"Insufficient balance\"\n        \n        self.balances[user] -= amount\n        self.total_supply -= amount\n        \n        return f\"Withdrawn ",
.esc '\x7b',
.lit "amount",
.esc '\x7d',
.lit "\"\n    \n    @gl.public.view\n    def get_balance(self, address: str) -> int:\n        return self.balances.get(address, 0)\n"]


theorem str_mk_append3 (a b c : String) :
    String.mk (a.data ++ (b.data ++ c.data)) = a ++ (b ++ c) := by
  cases a
  cases b
  cases c
  rfl

theorem renderGo_basic (v : String) :
    pyFormatGo [("name", v)] .lit basicCode.data
      = some (renderedPre.data ++ (v.data ++ basicPost.data)) := by
  have he : basicCode.data = segsEncode basicSegs := by decide
  rw [he, pyFormatGo_segs _ _ (by decide)]
  rfl

theorem render_basic (n : String) :
    pyFormat [("name", n)] basicCode = some (renderedPre ++ (n ++ basicPost)) := by
  unfold pyFormat
  rw [renderGo_basic n]
  exact congrArg some (str_mk_append3 renderedPre n basicPost)

theorem renderTemplate_basic (n : String) :
    renderTemplate "basic" n = some (renderedPre ++ (n ++ basicPost)) := by
  have h0 : renderTemplate "basic" n = pyFormat [("name", n)] basicCode := rfl
  rw [h0]
  exact render_basic n

theorem renderGo_oracle (v : String) :
    pyFormatGo [("name", v)] .lit oracleCode.data
      = some (renderedPre.data ++ (v.data ++ oraclePost.data)) := by
  have he : oracleCode.data = segsEncode oracleSegs := by decide
  rw [he, pyFormatGo_segs _ _ (by decide)]
  rfl

theorem render_oracle (n : String) :
    pyFormat [("name", n)] oracleCode = some (renderedPre ++ (n ++ oraclePost)) := by
  unfold pyFormat
  rw [renderGo_oracle n]
  exact congrArg some (str_mk_append3 renderedPre n oraclePost)

theorem renderTemplate_oracle (n : String) :
    renderTemplate "oracle" n = some (renderedPre ++ (n ++ oraclePost)) := by
  have h0 : renderTemplate "oracle" n = pyFormat [("name", n)] oracleCode := rfl
  rw [h0]
  exact render_oracle n

theorem renderGo_insurance (v : String) :
    pyFormatGo [("name", v)] .lit insuranceCode.data
      = some (renderedPre.data ++ (v.data ++ insurancePost.data)) := by
  have he : insuranceCode.data = segsEncode insuranceSegs := by decide
  rw [he, pyFormatGo_segs _ _ (by decide)]
  rfl

theorem render_insurance (n : String) :
    pyFormat [("name", n)] insuranceCode = some (renderedPre ++ (n ++ insurancePost)) := by
  unfold pyFormat
  rw [renderGo_insurance n]
  exact congrArg some (str_mk_append3 renderedPre n insurancePost)

theorem renderTemplate_insurance (n : String) :
    renderTemplate "insurance" n = some (renderedPre ++ (n ++ insurancePost)) := by
  have h0 : renderTemplate "insurance" n = pyFormat [("name", n)] insuranceCode := rfl
  rw [h0]
  exact render_insurance n

theorem renderGo_defi (v : String) :
    pyFormatGo [("name", v)] .lit defiCode.data
      = some (renderedPre.data ++ (v.data ++ defiPost.data)) := by
  have he : defiCode.data = segsEncode defiSegs := by decide
  rw [he, pyFormatGo_segs _ _ (by decide)]
  rfl

theorem render_defi (n : String) :
    pyFormat [("name", n)] defiCode = some (renderedPre ++ (n ++ defiPost)) := by
  unfold pyFormat
  rw [renderGo_defi n]
  exact congrArg some (str_mk_append3 renderedPre n defiPost)

theorem renderTemplate_defi (n : String) :
    renderTemplate "defi" n = some (renderedPre ++ (n ++ defiPost)) := by
  have h0 : renderTemplate "defi" n = pyFormat [("name", n)] defiCode := rfl
  rw [h0]
  exact render_defi n

/-! ### Facts about the modelled parser on rendered output -/

theorem validIdent_all (l : List Char) (h : validIdentChars l = true) :
    ∀ c ∈ l, isIdentChar c = true := by
  cases l with
  | nil => simp [validIdentChars] at h
  | cons a l =>
    simp only [validIdentChars, Bool.and_eq_true] at h
    obtain ⟨h1, h2⟩ := h
    intro c hc
    rcases List.mem_cons.mp hc with rfl | hc
    · simp [isIdentChar, h1]
    · exact List.all_eq_true.mp h2 c hc

theorem validIdent_no_newline (l : List Char) (h : validIdentChars l = true) :
    '\n' ∉ l := by
  intro hm
  exact absurd (validIdent_all l h _ hm) (by decide)

theorem identChar_not_stop (c : Char) (h : isIdentChar c = true) :
    (!nameStop c) = true := by
  rcases hs : nameStop c with _ | _
  · simp
  · exfalso
    simp only [nameStop, Bool.or_eq_true, decide_eq_true_eq] at hs
    rcases hs with (rfl | rfl) | rfl <;> exact absurd h (by decide)

theorem takeWhile_append_all (p : Char → Bool) (xs ys : List Char)
    (h : ∀ c ∈ xs, p c = true) :
    (xs ++ ys).takeWhile p = xs ++ ys.takeWhile p := by
  induction xs with
  | nil => simp
  | cons a l ih =>
    have ha := h a (List.mem_cons_self a l)
    simp [List.takeWhile_cons, ha, ih (fun c hc => h c (List.mem_cons_of_mem a hc))]

theorem isPrefixOf_append_self (xs ys : List Char) : xs.isPrefixOf (xs ++ ys) = true := by
  induction xs with
  | nil => simp [List.isPrefixOf]
  | cons a l ih => simp [List.isPrefixOf, ih]

theorem classLineOk_class (n : List Char) (hn : validIdentChars n = true)
    (hk : isKeyword n = false) :
    classLineOk ("class ".data ++ (n ++ "(gl.Contract):".data)) = true := by
  unfold classLineOk
  rw [if_pos (isPrefixOf_append_self "class ".data (n ++ "(gl.Contract):".data))]
  have hd : ("class ".data ++ (n ++ "(gl.Contract):".data)).drop 6
      = n ++ "(gl.Contract):".data := rfl
  rw [hd,
    takeWhile_append_all _ n _ (fun c hc => identChar_not_stop c (validIdent_all n hn c hc)),
    show ("(gl.Contract):".data.takeWhile fun c => !nameStop c) = [] from rfl,
    List.append_nil]
  simp [hn, hk]

theorem splitLines_cons_newline (l : List Char) :
    splitLines ('\n' :: l) = [] :: splitLines l := by
  simp [splitLines]

theorem splitLines_append_cons (xs ys : List Char) (h : '\n' ∉ xs) :
    splitLines (xs ++ '\n' :: ys) = xs :: splitLines ys := by
  induction xs with
  | nil => simp [splitLines]
  | cons c cs ih =>
    have hc : ¬ c = '\n' := fun e => h (List.mem_cons.mpr (Or.inl e.symm))
    have hcs : '\n' ∉ cs := fun m => h (List.mem_cons_of_mem _ m)
    rw [List.cons_append]
    simp only [splitLines, if_neg hc, ih hcs]

theorem pySyntaxCheckL_parts (n body : List Char)
    (hn : validIdentChars n = true) (hk : isKeyword n = false)
    (hb : (splitLines body).all classLineOk = true) :
    pySyntaxCheckL (renderedPre.data ++ (n ++ ("(gl.Contract):".data ++ '\n' :: body))) = true := by
  unfold pySyntaxCheckL
  rw [show renderedPre.data ++ (n ++ ("(gl.Contract):".data ++ '\n' :: body))
      = "# \x7b \"Depends\": \"py-genlayer:test\" \x7d".data ++ '\n' ::
        ("from genlayer import *".data ++ '\n' ::
          ('\n' :: ("class ".data ++ (n ++ ("(gl.Contract):".data ++ '\n' :: body))))) from rfl]
  rw [splitLines_append_cons _ _ (by decide)]
  rw [splitLines_append_cons _ _ (by decide)]
  rw [splitLines_cons_newline]
  have hshape : "class ".data ++ (n ++ ("(gl.Contract):".data ++ '\n' :: body))
      = ("class ".data ++ (n ++ "(gl.Contract):".data)) ++ '\n' :: body := by
    simp only [List.append_assoc, List.cons_append]
  rw [hshape]
  have hnl : '\n' ∉ "class ".data ++ (n ++ "(gl.Contract):".data) := by
    intro hm
    rcases List.mem_append.mp hm with hm1 | hm2
    · exact absurd hm1 (by decide)
    · rcases List.mem_append.mp hm2 with hm3 | hm4
      · exact validIdent_no_newline n hn hm3
      · exact absurd hm4 (by decide)
  rw [splitLines_append_cons _ _ hnl]
  simp only [List.all_cons, Bool.and_eq_true]
  exact ⟨by decide, by decide, by decide, classLineOk_class n hn hk, hb⟩

theorem pySyntaxCheck_pre_post (n body : String)
    (hn : validIdentChars n.data = true) (hk : isKeyword n.data = false)
    (hb : (splitLines body.data).all classLineOk = true) :
    pySyntaxCheck (renderedPre ++ (n ++ ("(gl.Contract):\n" ++ body))) = none := by
  unfold pySyntaxCheck
  rw [show (renderedPre ++ (n ++ ("(gl.Contract):\n" ++ body))).data
      = renderedPre.data ++ (n.data ++ ("(gl.Contract):".data ++ '\n' :: body.data)) from rfl]
  rw [pySyntaxCheckL_parts n.data body.data hn hk hb]
  rfl

/-! ### Substring and count facts -/

theorem pyIn_append_right (nd b : List Char) (h : pyIn nd b = true) :
    ∀ a, pyIn nd (a ++ b) = true := by
  intro a
  induction a with
  | nil => simpa using h
  | cons c a' ih =>
    rw [List.cons_append]
    simp [pyIn, ih]

theorem pyIn_iff_countAux (nd : List Char) (hnd : nd ≠ []) :
    ∀ hay, pyIn nd hay = true ↔ 1 ≤ pyCountAux nd hay 0 := by
  intro hay
  induction hay with
  | nil =>
    cases nd with
    | nil => exact absurd rfl hnd
    | cons a as => simp [pyIn, pyCountAux, List.isEmpty]
  | cons c rest ih =>
    rcases hp : nd.isPrefixOf (c :: rest) with _ | _
    · have hcount : pyCountAux nd (c :: rest) 0 = pyCountAux nd rest 0 := by
        simp [pyCountAux, hp]
      have hin : pyIn nd (c :: rest) = pyIn nd rest := by simp [pyIn, hp]
      rw [hin, hcount]
      exact ih
    · have hcount : pyCountAux nd (c :: rest) 0 = 1 + pyCountAux nd rest (nd.length - 1) := by
        simp [pyCountAux, hp]
      have hin : pyIn nd (c :: rest) = true := by simp [pyIn, hp]
      rw [hin, hcount]
      exact iff_of_true rfl (Nat.le_add_right 1 _)

theorem pyIn_iff_count (src : String) :
    pyIn "@gl.public".data src.data = true ↔ 1 ≤ pyCountStr "@gl.public" src := by
  unfold pyCountStr
  rw [if_neg (by decide : ¬ ("@gl.public".data.isEmpty = true))]
  exact pyIn_iff_countAux _ (by decide) _

/-! ### Evaluation lemmas for the generate command -/

theorem generateRun_unknown (typ name : String) (st : Bool)
    (hl : List.lookup typ templates = none) :
    generateRun typ name st = ⟨true, templateKeys, false, [], 0⟩ := by
  unfold generateRun
  rw [hl]
  rfl

theorem generateRun_known (typ name : String) (st : Bool) (t : Template) (r : String)
    (hl : List.lookup typ templates = some t)
    (hr : pyFormat [("name", name)] t.code = some r) :
    generateRun typ name st =
      ⟨false, [], !st,
       [(((if st then "contracts/" ++ name ++ ".py" else name ++ ".py") : String), r)], 0⟩ := by
  unfold generateRun
  rw [hl]
  dsimp only
  rw [hr]

theorem str_data_append3 (a b c : String) :
    (a ++ (b ++ c)).data = a.data ++ (b.data ++ c.data) := by
  cases a
  cases b
  cases c
  rfl

theorem runTest_render_shape (parse : String → Option String) (name post : String)
    (hp : parse (renderedPre ++ (name ++ post)) = none)
    (h1 : pyIn "gl.Contract".data post.data = true)
    (h2 : pyIn "@gl.public".data post.data = true)
    (h3 : pyIn "def __init__".data post.data = true) :
    runTest parse (renderedPre ++ (name ++ post)) =
      ⟨true, none,
       some [("Inherits from gl.Contract", true), ("Has public methods", true),
             ("Has constructor", true)],
       some (pyCountStr "@gl.public" (renderedPre ++ (name ++ post)))⟩ := by
  unfold runTest
  rw [hp]
  simp only [requiredChecks, List.map_cons, List.map_nil]
  rw [str_data_append3]
  rw [pyIn_append_right _ _ (pyIn_append_right _ _ h1 name.data) renderedPre.data]
  rw [pyIn_append_right _ _ (pyIn_append_right _ _ h2 name.data) renderedPre.data]
  rw [pyIn_append_right _ _ (pyIn_append_right _ _ h3 name.data) renderedPre.data]

/-! ### The claims -/

/-- Claim C1, amended: for every source text whose syntax check fails, the
test command reports `syntax_ok = false` with the parser message and returns
at once — the required-idiom checks and the public entry-point count are not
run (the report is short-circuited, not best-effort). -/
theorem validate_syntax_fail_stops (parse : String → Option String) (src e : String)
    (h : parse src = some e) :
    runTest parse src = ⟨false, some e, none, none⟩ := by
  unfold runTest
  rw [h]

/-- Witness for C1 at a concrete rejected source. -/
theorem validate_syntax_fail_stops_witness :
    pySyntaxCheck "class (Broken:" = some "invalid syntax" ∧
      runTest pySyntaxCheck "class (Broken:" = ⟨false, some "invalid syntax", none, none⟩ :=
  ⟨by decide, validate_syntax_fail_stops pySyntaxCheck _ _ (by decide)⟩

/-- Counterexample to C1 as stated: a source rejected by the syntax check
whose report carries no idiom-check results and no entry-point count. -/
theorem validate_syntax_fail_claim_false :
    (runTest pySyntaxCheck "class (Broken:").syntaxOk = false ∧
    (runTest pySyntaxCheck "class (Broken:").checks = none ∧
    (runTest pySyntaxCheck "class (Broken:").publicCount = none := by
  decide

/-- Claim C2, amended: the modelled validator is total — for every parser
verdict and every source text it returns either the full report (syntax ok,
all three idiom checks and the count present) or the early-return report
carrying only the syntax error; in the failure case the idiom checks are
absent from the report, not reported as failed. -/
theorem validate_total_shapes (parse : String → Option String) (src : String) :
    (parse src = none ∧
      runTest parse src =
        ⟨true, none,
         some (requiredChecks.map (fun pc => (pc.2, pyIn pc.1.data src.data))),
         some (pyCountStr "@gl.public" src)⟩) ∨
    (∃ e, parse src = some e ∧ runTest parse src = ⟨false, some e, none, none⟩) := by
  cases h : parse src with
  | none =>
    refine Or.inl ⟨rfl, ?_⟩
    unfold runTest
    rw [h]
  | some e =>
    refine Or.inr ⟨e, rfl, ?_⟩
    unfold runTest
    rw [h]

/-- Counterexample to C2 as stated: on a rejected source the report does not
contain all idiom checks marked failed — it contains no checks at all. -/
theorem validate_worst_case_claim_false :
    (runTest pySyntaxCheck "class 9(x):").syntaxOk = false ∧
    (runTest pySyntaxCheck "class 9(x):").checks ≠
      some (requiredChecks.map (fun pc => (pc.2, false))) ∧
    (runTest pySyntaxCheck "class 9(x):").checks = none := by
  decide

/-- Claim C3, amended: an unknown template key makes generate report the
unknown type together with the full list of valid keys and perform zero
file-system writes, but the process exits 0 (the command returns normally),
not non-zero. -/
theorem generate_unknown_key (typ name : String) (st : Bool)
    (h : List.lookup typ templates = none) :
    generateRun typ name st =
      { unknownType := true, availableTypes := ["basic", "oracle", "insurance", "defi"],
        warnedNoDir := false, writes := [], exitCode := 0 } := by
  rw [generateRun_unknown typ name st h]
  rfl

/-- Witness for C3 at the concrete unknown key `bogus`. -/
theorem generate_unknown_key_witness :
    List.lookup "bogus" templates = none ∧
      generateRun "bogus" "X" true =
        { unknownType := true, availableTypes := ["basic", "oracle", "insurance", "defi"],
          warnedNoDir := false, writes := [], exitCode := 0 } :=
  ⟨by decide, generate_unknown_key "bogus" "X" true (by decide)⟩

/-- Counterexample to C3 as stated: with the unknown key `bogus` there are
zero writes and the unknown type is signalled, yet the exit code is 0. -/
theorem generate_unknown_exit_zero :
    (generateRun "bogus" "X" true).writes = [] ∧
    (generateRun "bogus" "X" true).unknownType = true ∧
    (generateRun "bogus" "X" true).exitCode = 0 := by
  decide

/-- Claim C4, amended: for every registered template key and every context
whose name is a well-formed (ASCII) identifier that is not a reserved
keyword, the rendered output passes the modelled syntax-acceptance check;
the restriction is necessary because generate accepts arbitrary name
strings (e.g. the empty string, or the keyword `class`) whose rendered
output is rejected. -/
theorem render_syntax_ok (typ name : String)
    (ht : typ ∈ templateKeys) (hn : validIdentChars name.data = true)
    (hk : isKeyword name.data = false) :
    ∃ r, renderTemplate typ name = some r ∧ pySyntaxCheck r = none := by
  have h4 : typ = "basic" ∨ typ = "oracle" ∨ typ = "insurance" ∨ typ = "defi" := by
    simpa [templateKeys, templates] using ht
  rcases h4 with rfl | rfl | rfl | rfl
  · refine ⟨_, renderTemplate_basic name, ?_⟩
    rw [show basicPost = "(gl.Contract):\n" ++ basicBody from rfl]
    exact pySyntaxCheck_pre_post name basicBody hn hk (by decide)
  · refine ⟨_, renderTemplate_oracle name, ?_⟩
    rw [show oraclePost = "(gl.Contract):\n" ++ oracleBody from rfl]
    exact pySyntaxCheck_pre_post name oracleBody hn hk (by decide)
  · refine ⟨_, renderTemplate_insurance name, ?_⟩
    rw [show insurancePost = "(gl.Contract):\n" ++ insuranceBody from rfl]
    exact pySyntaxCheck_pre_post name insuranceBody hn hk (by decide)
  · refine ⟨_, renderTemplate_defi name, ?_⟩
    rw [show defiPost = "(gl.Contract):\n" ++ defiBody from rfl]
    exact pySyntaxCheck_pre_post name defiBody hn hk (by decide)

/-- Witness for C4 at a concrete key and non-keyword identifier name. -/
theorem render_syntax_ok_witness :
    "defi" ∈ templateKeys ∧ validIdentChars "MyToken".data = true ∧
      isKeyword "MyToken".data = false ∧
      ∃ r, renderTemplate "defi" "MyToken" = some r ∧ pySyntaxCheck r = none :=
  ⟨by decide, by decide, by decide,
   render_syntax_ok "defi" "MyToken" (by decide) (by decide) (by decide)⟩

/-- Counterexample to C4 as stated: generate accepts the empty name, whose
render contains `class (gl.Contract):`, and the identifier-shaped keyword
name `class`, whose render contains `class class(gl.Contract):`; both fail
the syntax check (and the real parser), so not every accepted context
renders to parseable source. -/
theorem render_bad_name_syntax_error :
    (∃ r, renderTemplate "basic" "" = some r ∧
      pySyntaxCheck r = some "invalid syntax") ∧
    (∃ r, renderTemplate "basic" "class" = some r ∧
      validIdentChars "class".data = true ∧
      pySyntaxCheck r = some "invalid syntax") := by
  constructor
  · refine ⟨renderedPre ++ ("" ++ basicPost), renderTemplate_basic "", ?_⟩
    decide
  · refine ⟨renderedPre ++ ("class" ++ basicPost), renderTemplate_basic "class",
      by decide, ?_⟩
    decide

/-- Claim C5, amended: for every registered template, every identifier name,
and every parser verdict accepting the rendered output, validating the
output reports syntax ok with all three idiom checks passed; for the basic
template with name `Foo` the reported public entry-point count is 2. -/
theorem validate_rendered_output (parse : String → Option String) (typ name r : String)
    (ht : typ ∈ templateKeys) (hn : validIdentChars name.data = true)
    (hr : renderTemplate typ name = some r) (hp : parse r = none) :
    runTest parse r =
      ⟨true, none,
       some [("Inherits from gl.Contract", true), ("Has public methods", true),
             ("Has constructor", true)],
       some (pyCountStr "@gl.public" r)⟩ ∧
    (typ = "basic" → name = "Foo" → (runTest parse r).publicCount = some 2) := by
  have h4 : typ = "basic" ∨ typ = "oracle" ∨ typ = "insurance" ∨ typ = "defi" := by
    simpa [templateKeys, templates] using ht
  rcases h4 with rfl | rfl | rfl | rfl
  · rw [renderTemplate_basic name] at hr
    obtain rfl := Option.some.inj hr
    refine ⟨runTest_render_shape parse name basicPost hp (by decide) (by decide) (by decide), ?_⟩
    intro _ hname
    subst hname
    rw [runTest_render_shape parse "Foo" basicPost hp (by decide) (by decide) (by decide)]
    decide
  · rw [renderTemplate_oracle name] at hr
    obtain rfl := Option.some.inj hr
    refine ⟨runTest_render_shape parse name oraclePost hp (by decide) (by decide) (by decide), ?_⟩
    intro habs
    exact absurd habs (by decide)
  · rw [renderTemplate_insurance name] at hr
    obtain rfl := Option.some.inj hr
    refine ⟨runTest_render_shape parse name insurancePost hp (by decide) (by decide) (by decide), ?_⟩
    intro habs
    exact absurd habs (by decide)
  · rw [renderTemplate_defi name] at hr
    obtain rfl := Option.some.inj hr
    refine ⟨runTest_render_shape parse name defiPost hp (by decide) (by decide) (by decide), ?_⟩
    intro habs
    exact absurd habs (by decide)

/-- Witness for C5: the basic template rendered with `Foo`, validated under
the modelled parser, reports syntax ok and public entry-point count 2. -/
theorem validate_rendered_output_witness :
    (runTest pySyntaxCheck (renderedPre ++ ("Foo" ++ basicPost))).syntaxOk = true ∧
    (runTest pySyntaxCheck (renderedPre ++ ("Foo" ++ basicPost))).publicCount = some 2 := by
  have h := validate_rendered_output pySyntaxCheck "basic" "Foo"
    (renderedPre ++ ("Foo" ++ basicPost)) (by decide) (by decide)
    (renderTemplate_basic "Foo") (by decide)
  refine ⟨?_, h.2 rfl rfl⟩
  rw [h.1]

/-- Counterexample to C5 as stated: the accepted name `123` renders the
basic template to source whose validation reports `syntax_ok = false`. -/
theorem validate_rendered_claim_false :
    ∃ r, renderTemplate "basic" "123" = some r ∧
      (runTest pySyntaxCheck r).syntaxOk = false := by
  refine ⟨renderedPre ++ ("123" ++ basicPost), renderTemplate_basic "123", ?_⟩
  decide

/-- Claim C6: after any brace-free prefix of a template body, a doubled
literal brace renders to a single literal brace character in the output and
is never treated as a substitution placeholder, for every context. -/
theorem doubled_brace_literal (ctx : List (String × String)) (a b : List Char)
    (h : braceFree a = true) :
    pyFormatGo ctx .lit (a ++ '\x7b' :: '\x7b' :: b)
      = (pyFormatGo ctx .lit b).map (fun s => a ++ '\x7b' :: s) ∧
    pyFormatGo ctx .lit (a ++ '\x7d' :: '\x7d' :: b)
      = (pyFormatGo ctx .lit b).map (fun s => a ++ '\x7d' :: s) := by
  constructor
  · rw [pyFormatGo_lit_append ctx a _ h, pyFormatGo_open_esc]
    cases pyFormatGo ctx .lit b <;> rfl
  · rw [pyFormatGo_lit_append ctx a _ h, pyFormatGo_close_esc]
    cases pyFormatGo ctx .lit b <;> rfl

/-- Witness for C6 at a concrete fragment of the basic template. -/
theorem doubled_brace_literal_witness :
    braceFree "self.data = ".data = true ∧
      pyFormatGo [] .lit ("self.data = ".data ++ '\x7b' :: '\x7b' :: ('\x7d' :: '\x7d' :: []))
        = (pyFormatGo [] .lit ('\x7d' :: '\x7d' :: [])).map
            (fun s => "self.data = ".data ++ '\x7b' :: s) :=
  ⟨by decide,
   (doubled_brace_literal [] "self.data = ".data ('\x7d' :: '\x7d' :: []) (by decide)).1⟩

/-- Claim C7: rendering and generation are deterministic — the outcome is a
pure function of the arguments, and the written file content does not even
depend on the directory state (only the path does). -/
theorem generate_deterministic (typ name : String) (st : Bool) :
    (renderTemplate typ name = renderTemplate typ name) ∧
    (generateRun typ name st = generateRun typ name st) ∧
    ∀ st1 st2 : Bool,
      (generateRun typ name st1).writes.map Prod.snd
        = (generateRun typ name st2).writes.map Prod.snd := by
  refine ⟨rfl, rfl, ?_⟩
  intro s1 s2
  unfold generateRun
  cases List.lookup typ templates with
  | none => rfl
  | some t =>
    dsimp only
    cases pyFormat [("name", name)] t.code with
    | none => rfl
    | some r => rfl

/-- Claim C8, amended: the required-idiom battery is exactly the fixed
ordered three-element list of substring checks — base contract, public
method, initializer — and on every invocation whose syntax check passes the
report lists exactly these checks in this order, each as a substring test of
the raw source text; invocations failing the syntax check skip them. -/
theorem required_checks_fixed :
    requiredChecks = [("gl.Contract", "Inherits from gl.Contract"),
      ("@gl.public", "Has public methods"), ("def __init__", "Has constructor")] ∧
    ∀ (parse : String → Option String) (src : String), parse src = none →
      (runTest parse src).checks
        = some (requiredChecks.map (fun pc => (pc.2, pyIn pc.1.data src.data))) := by
  refine ⟨rfl, ?_⟩
  intro parse src h
  unfold runTest
  rw [h]

/-- Witness for C8 at a concrete accepted source. -/
theorem required_checks_fixed_witness :
    pySyntaxCheck "x = 1" = none ∧
      (runTest pySyntaxCheck "x = 1").checks
        = some [("Inherits from gl.Contract", false), ("Has public methods", false),
                ("Has constructor", false)] := by
  refine ⟨by decide, ?_⟩
  rw [required_checks_fixed.2 pySyntaxCheck "x = 1" (by decide)]
  decide

/-- Counterexample to C8 as stated: on a syntax-rejected source the battery
is not evaluated at all. -/
theorem checks_skipped_on_syntax_error :
    pySyntaxCheck "class :" = some "invalid syntax" ∧
    (runTest pySyntaxCheck "class :").checks = none := by
  decide

/-- Claim C9: for every known template key and any name, when the contracts
directory does not exist generate does not fail: it warns and falls back to
writing the rendered contract as `<name>.py` in the current working
directory, exiting 0. -/
theorem generate_fallback_cwd (typ name : String) (ht : typ ∈ templateKeys) :
    ∃ content, generateRun typ name false =
      { unknownType := false, availableTypes := [], warnedNoDir := true,
        writes := [(name ++ ".py", content)], exitCode := 0 } := by
  have h4 : typ = "basic" ∨ typ = "oracle" ∨ typ = "insurance" ∨ typ = "defi" := by
    simpa [templateKeys, templates] using ht
  rcases h4 with rfl | rfl | rfl | rfl
  · exact ⟨_, generateRun_known "basic" name false _ _ rfl (render_basic name)⟩
  · exact ⟨_, generateRun_known "oracle" name false _ _ rfl (render_oracle name)⟩
  · exact ⟨_, generateRun_known "insurance" name false _ _ rfl (render_insurance name)⟩
  · exact ⟨_, generateRun_known "defi" name false _ _ rfl (render_defi name)⟩

/-- Witness for C9 at a concrete key and name. -/
theorem generate_fallback_cwd_witness :
    "oracle" ∈ templateKeys ∧
      ∃ content, generateRun "oracle" "Bar" false =
        { unknownType := false, availableTypes := [], warnedNoDir := true,
          writes := [("Bar.py", content)], exitCode := 0 } :=
  ⟨by decide, generate_fallback_cwd "oracle" "Bar" (by decide)⟩

/-- Claim C10: the "Has public methods" idiom check passes exactly when the
reported public entry-point count is at least one — the check is the
substring test for `@gl.public` and the count tallies occurrences of the
same marker in the raw source. -/
theorem public_check_iff_count_pos (src : String) :
    (("@gl.public", "Has public methods") ∈ requiredChecks) ∧
    (pyIn "@gl.public".data src.data = true ↔ 1 ≤ pyCountStr "@gl.public" src) :=
  ⟨by decide, pyIn_iff_count src⟩

end GenlayerDevkit
